import Mathlib

/-!
Verification of the Milo integrated robot controller
(`milo_integrated.ino`) against its natural-language specification.

The sketch is embedded shallowly:
* the six motor-driver registers (IN1, IN2, IN3, IN4, ENA, ENB) become the
  fields of `MotorState`; `digitalWrite`/`analogWrite` calls become record
  updates (HIGH = `true`, LOW = `false`);
* C `float` arithmetic is modelled over `ℚ`; the implicit `float → int`
  conversion (truncation toward zero) is `toCppInt`;
* `millis()` timestamps are natural numbers; the 32-bit unsigned
  subtraction `millis() - testStartTime` is taken modulo 2^32;
* the serial streams are modelled as the list of complete lines they
  deliver, and `Serial.print` output as an appended list of log strings.
-/

namespace Milo

/-! ## Pin constants and tuning constants (lines 13-28 of the sketch) -/

/-- `const int maxSpeed = 180;` -/
def maxSpeed : Int := 180

/-- `const int autoFollowSpeed = 160;` -/
def autoFollowSpeed : Int := 160

/-- `const int testSpeed = 100;` -/
def testSpeed : Int := 100

/-- `const unsigned long bluetoothTimeout = 300;` -/
def bluetoothTimeout : Nat := 300

/-! ## Motor registers

The sketch declares IN1/IN2 as the left motor direction pins, IN3/IN4 as
the right motor direction pins, and ENA/ENB as the left/right PWM speed
registers.  A `MotorState` is the contents of those six registers. -/

structure MotorState where
  in1 : Bool
  in2 : Bool
  in3 : Bool
  in4 : Bool
  ena : Int
  enb : Int
deriving DecidableEq, Repr

/-- `moveForward(int spd)`: IN1 HIGH, IN2 LOW, IN3 HIGH, IN4 LOW,
ENA = ENB = spd. -/
def moveForward (spd : Int) (s : MotorState) : MotorState :=
  { s with in1 := true, in2 := false, in3 := true, in4 := false,
           ena := spd, enb := spd }

/-- `moveBackward(int spd)`: IN1 LOW, IN2 HIGH, IN3 LOW, IN4 HIGH,
ENA = ENB = spd. -/
def moveBackward (spd : Int) (s : MotorState) : MotorState :=
  { s with in1 := false, in2 := true, in3 := false, in4 := true,
           ena := spd, enb := spd }

/-- `turnLeft(int spd)`: IN1 LOW, IN2 HIGH, IN3 HIGH, IN4 LOW,
ENA = ENB = spd. -/
def turnLeft (spd : Int) (s : MotorState) : MotorState :=
  { s with in1 := false, in2 := true, in3 := true, in4 := false,
           ena := spd, enb := spd }

/-- `turnRight(int spd)`: IN1 HIGH, IN2 LOW, IN3 LOW, IN4 HIGH,
ENA = ENB = spd. -/
def turnRight (spd : Int) (s : MotorState) : MotorState :=
  { s with in1 := true, in2 := false, in3 := false, in4 := true,
           ena := spd, enb := spd }

/-- `stopMoving()`: all four direction pins LOW, ENA = ENB = 0. -/
def stopMoving (s : MotorState) : MotorState :=
  { s with in1 := false, in2 := false, in3 := false, in4 := false,
           ena := 0, enb := 0 }

/-- The left motor (pins IN1/IN2 per the sketch's pin declarations) is in
the forward configuration: the pattern `moveForward` gives those pins. -/
def leftForward (s : MotorState) : Prop := s.in1 = true ∧ s.in2 = false

/-- The left motor is in the backward configuration: the pattern
`moveBackward` gives pins IN1/IN2. -/
def leftBackward (s : MotorState) : Prop := s.in1 = false ∧ s.in2 = true

/-- The right motor (pins IN3/IN4 per the sketch's pin declarations) is in
the forward configuration: the pattern `moveForward` gives those pins. -/
def rightForward (s : MotorState) : Prop := s.in3 = true ∧ s.in4 = false

/-- The right motor is in the backward configuration: the pattern
`moveBackward` gives pins IN3/IN4. -/
def rightBackward (s : MotorState) : Prop := s.in3 = false ∧ s.in4 = true

instance (s : MotorState) : Decidable (leftForward s) := by
  unfold leftForward; infer_instance

instance (s : MotorState) : Decidable (leftBackward s) := by
  unfold leftBackward; infer_instance

instance (s : MotorState) : Decidable (rightForward s) := by
  unfold rightForward; infer_instance

instance (s : MotorState) : Decidable (rightBackward s) := by
  unfold rightBackward; infer_instance

/-! ## Joystick motion mapping -/

/-- The C conversion from a (here: rational-valued) floating expression to
`int`: truncation toward zero. -/
def toCppInt (q : ℚ) : Int := Int.tdiv q.num q.den

/-- `controlMotors(float rot, float mag)` (lines 185-205): stop when the
magnitude is below 0.15, otherwise dispatch on the rotation angle with
speed `int speed = maxSpeed * mag`. -/
def controlMotors (rot mag : ℚ) (s : MotorState) : MotorState :=
  if mag < 15/100 then stopMoving s
  else
    let speed : Int := toCppInt ((maxSpeed : ℚ) * mag)
    if 330 ≤ rot ∨ rot < 30 then turnRight speed s
    else if 30 ≤ rot ∧ rot < 150 then moveBackward speed s
    else if 150 ≤ rot ∧ rot < 210 then turnLeft speed s
    else if 210 ≤ rot ∧ rot < 330 then moveForward speed s
    else s

/-! ## Ranging -/

/-- `getDistanceCM(int pin)` (lines 343-361), as a function of the echo
pulse duration in microseconds returned by `pulseIn` (0 on timeout):
a zero duration yields the sentinel 999, otherwise `duration / 58.0`
truncated to `long`. -/
def getDistanceCM (duration : Nat) : Nat :=
  if duration = 0 then 999 else duration / 58

/-! ## Auto-follow mode -/

/-- `processAutoFollowMode()` (lines 210-233), as a function of the fresh
distance sample: returns the new motor state together with the log lines
printed this tick.  (The trailing `delay(autoFollowDelay)` has no effect
on the modelled state.) -/
def processAutoFollowMode (distance : Int) (s : MotorState) :
    MotorState × List String :=
  let logs := ["Distance: " ++ toString distance ++ " cm"]
  if distance > 60 then
    (moveForward autoFollowSpeed s, logs ++ ["Moving forward"])
  else if distance < 25 then
    (stopMoving s, logs ++ ["Stopped (too close)"])
  else
    (stopMoving s, logs ++ ["Stopped (maintaining distance)"])

/-! ## Test mode -/

/-- The modulus of Arduino `unsigned long` (32 bits). -/
def ULONG_MOD : Nat := 4294967296

/-- The 32-bit unsigned subtraction `millis() - testStartTime` computing
the elapsed time since the phase start. -/
def testElapsed (now start : Nat) : Nat := (now + ULONG_MOD - start) % ULONG_MOD

/-- The test-sequence globals `testPhase`, `testStartTime`, `testRunning`
(lines 44-46 of the sketch). -/
structure TestState where
  testPhase : Nat
  testStartTime : Nat
  testRunning : Bool
deriving DecidableEq, Repr

/-- The re-initialization at the top of `processTestMode`:
`if (!testRunning) { testStartTime = millis(); testRunning = true; testPhase = 0; }`. -/
def testInit (now : Nat) (ts : TestState) : TestState :=
  if ts.testRunning = false then ⟨0, now, true⟩ else ts

/-- `processTestMode()` (lines 238-288), as a function of the current
`millis()` value and the test-sequence state: returns the new
test-sequence state, the new motor state, and the log lines printed. -/
def processTestMode (now : Nat) (ts0 : TestState) (s : MotorState) :
    TestState × MotorState × List String :=
  let ts := testInit now ts0
  let elapsed := testElapsed now ts.testStartTime
  if ts.testPhase = 0 then
    if elapsed < 2000 then (ts, moveForward testSpeed s, ["Test: Moving forward"])
    else if elapsed < 3000 then (ts, stopMoving s, ["Test: Stopped"])
    else if elapsed < 5000 then (ts, moveBackward testSpeed s, ["Test: Moving backward"])
    else if elapsed < 6000 then (ts, stopMoving s, ["Test: Stopped"])
    else ({ ts with testPhase := 1, testStartTime := now }, s, [])
  else if ts.testPhase = 1 then
    if elapsed < 10000 then (ts, turnLeft testSpeed s, ["Test: Rotating (circle)"])
    else if elapsed < 13000 then (ts, stopMoving s, ["Test: Stopped"])
    else ({ ts with testPhase := 0, testStartTime := now }, s, ["Test: Cycle restarted"])
  else (ts, s, [])

/-! ## Global controller state and mode switching -/

/-- `enum RobotMode` (lines 31-35). -/
inductive RobotMode
  | MODE_BLUETOOTH
  | MODE_AUTO_FOLLOW
  | MODE_TEST
deriving DecidableEq, Repr

/-- The file-scope mutable state of the sketch, together with the motor
registers and the debug-serial output log. -/
structure SysState where
  currentMode : RobotMode
  lastCommandTime : Nat
  inputLine : List Char
  testStartTime : Nat
  testPhase : Nat
  testRunning : Bool
  motor : MotorState
  serialLog : List String
deriving DecidableEq, Repr

/-- The state after `setup()`: BLUETOOTH mode, zeroed timers, empty input
line, test sequence idle, motors stopped. -/
def initialState : SysState :=
  { currentMode := RobotMode.MODE_BLUETOOTH
    lastCommandTime := 0
    inputLine := []
    testStartTime := 0
    testPhase := 0
    testRunning := false
    motor := ⟨false, false, false, false, 0, 0⟩
    serialLog := [] }

/-- The mode name printed by the `switch` in `switchMode`. -/
def modeName : RobotMode → String
  | RobotMode.MODE_BLUETOOTH => "BLUETOOTH"
  | RobotMode.MODE_AUTO_FOLLOW => "AUTO_FOLLOW"
  | RobotMode.MODE_TEST => "TEST"

/-- `switchMode(RobotMode newMode)` (lines 116-142): when the target mode
differs from the current one, stop the motors, commit the new mode, reset
`inputLine`, `testRunning`, `testPhase`, print a confirmation, and for
TEST additionally set `testStartTime = millis()` and `testRunning = true`.
Otherwise do nothing. -/
def switchMode (now : Nat) (newMode : RobotMode) (st : SysState) : SysState :=
  if st.currentMode ≠ newMode then
    let st1 := { st with motor := stopMoving st.motor,
                         currentMode := newMode,
                         inputLine := [],
                         testRunning := false,
                         testPhase := 0 }
    match newMode with
    | RobotMode.MODE_BLUETOOTH =>
        { st1 with serialLog := st1.serialLog ++ ["Mode switched to: BLUETOOTH"] }
    | RobotMode.MODE_AUTO_FOLLOW =>
        { st1 with serialLog := st1.serialLog ++ ["Mode switched to: AUTO_FOLLOW"] }
    | RobotMode.MODE_TEST =>
        { st1 with serialLog := st1.serialLog ++ ["Mode switched to: TEST"],
                   testStartTime := now, testRunning := true }
  else st

/-! ## Mode-switch command stream -/

/-- The character class removed by Arduino `String::trim` (`isspace`). -/
def arduinoIsSpace (c : Char) : Bool :=
  c = ' ' || c = '\t' || c = '\n' || c = '\x0b' || c = '\x0c' || c = '\r'

/-- Arduino `String::trim`: remove leading and trailing whitespace. -/
def arduinoTrim (s : List Char) : List Char :=
  ((s.dropWhile arduinoIsSpace).reverse.dropWhile arduinoIsSpace).reverse

/-- ASCII lower-casing of one character, as C `tolower`. -/
def asciiToLower (c : Char) : Char :=
  if 'A' ≤ c ∧ c ≤ 'Z' then Char.ofNat (c.toNat + 32) else c

/-- Arduino `String::toLowerCase`. -/
def arduinoLowerCase (s : List Char) : List Char := s.map asciiToLower

/-- The body of the `while (Serial.available())` loop in
`checkModeSwitch()` (lines 100-114), applied to one complete line
delivered by `Serial.readStringUntil`. -/
def processModeToken (now : Nat) (line : List Char) (st : SysState) : SysState :=
  let command := arduinoLowerCase (arduinoTrim line)
  if command = "auto".toList then switchMode now RobotMode.MODE_AUTO_FOLLOW st
  else if command = "bluetooth".toList then switchMode now RobotMode.MODE_BLUETOOTH st
  else if command = "test".toList then switchMode now RobotMode.MODE_TEST st
  else st

/-- `checkModeSwitch()`: drain every currently available line from the
diagnostic serial stream (the empty list when no bytes are available) and
process each in order. -/
def checkModeSwitch (now : Nat) (lines : List (List Char)) (st : SysState) : SysState :=
  lines.foldl (fun acc line => processModeToken now line acc) st

/-! ## Joystick command parsing -/

/-- The digits of a decimal string folded into a natural number. -/
def digitsToNat (ds : List Char) : Nat :=
  ds.foldl (fun acc c => 10 * acc + (c.toNat - 48)) 0

/-- Arduino `String::toFloat` (HAL library, not part of the sketch):
lenient `strtod`-style parse — skip leading whitespace, optional sign,
integer digits, optional fractional digits — returning 0 when no digits
are found.  (Exponent suffixes are not modelled; no claim exercises
them.) -/
def arduinoToFloat (s : List Char) : ℚ :=
  let s1 := s.dropWhile arduinoIsSpace
  let signAndRest : ℚ × List Char :=
    match s1 with
    | '-' :: rest => (-1, rest)
    | '+' :: rest => (1, rest)
    | _ => (1, s1)
  let intDigits := signAndRest.2.takeWhile Char.isDigit
  let s2 := signAndRest.2.dropWhile Char.isDigit
  let fracDigits :=
    match s2 with
    | '.' :: rest => rest.takeWhile Char.isDigit
    | _ => []
  if intDigits = [] ∧ fracDigits = [] then 0
  else signAndRest.1 * ((digitsToNat intDigits : ℚ) +
    (digitsToNat fracDigits : ℚ) / (10 : ℚ) ^ fracDigits.length)

/-- `processJoystickCommand(String cmd)` (lines 165-183): reject lines
not starting with "J0:" or containing no comma, with no side effect at
all; otherwise parse the two fields, print them, record the command time
and drive the motors.  (The exact rendering of the printed numbers is
abstracted in the log entry.) -/
def processJoystickCommand (now : Nat) (cmd : List Char) (st : SysState) : SysState :=
  if ¬ cmd.take 3 = "J0:".toList then st
  else
    match cmd.findIdx? (fun c => c = ',') with
    | none => st
    | some commaIndex =>
      let rotation := arduinoToFloat ((cmd.drop 3).take (commaIndex - 3))
      let magnitude := arduinoToFloat (cmd.drop (commaIndex + 1))
      let logEntry :=
        "Angle = " ++ toString rotation ++ "deg, Magnitude = " ++ toString magnitude
      { st with serialLog := st.serialLog ++ [logEntry],
                lastCommandTime := now,
                motor := controlMotors rotation magnitude st.motor }

end Milo

namespace Milo

/-! ## Theorems for the actuation layer and the motion mapping -/

theorem toCppInt_eq_floor (q : ℚ) (h : 0 ≤ q) : toCppInt q = ⌊q⌋ := by
  rw [toCppInt, Int.tdiv_eq_ediv (Rat.num_nonneg.mpr h) (Int.natCast_nonneg _),
    Rat.floor_def]

/-- C2 counterexample: `turnLeft` does NOT put the left motor (pins
IN1/IN2) in the forward configuration together with the right motor in the
backward configuration; at speed 100 from the all-stopped state it drives
IN1 LOW and IN2 HIGH, the left motor's backward pattern. -/
theorem turnLeft_not_left_forward :
    ¬ (leftForward (turnLeft 100 ⟨false, false, false, false, 0, 0⟩) ∧
       rightBackward (turnLeft 100 ⟨false, false, false, false, 0, 0⟩)) := by
  decide

/-- C2 (amended): `turnLeft` drives the left motor backward and the right
motor forward (a pivot turn), `turnRight` is the mirror image, `stopMoving`
sets all four direction pins low and both speeds to zero, and each of the
five actuation operations unconditionally writes both motors' direction
and speed registers (the resulting register file is a constant, never a
partial update of the previous state). -/
theorem actuation_ops_spec (spd : Int) (s : MotorState) :
    turnLeft spd s = ⟨false, true, true, false, spd, spd⟩
    ∧ leftBackward (turnLeft spd s) ∧ rightForward (turnLeft spd s)
    ∧ turnRight spd s = ⟨true, false, false, true, spd, spd⟩
    ∧ leftForward (turnRight spd s) ∧ rightBackward (turnRight spd s)
    ∧ moveForward spd s = ⟨true, false, true, false, spd, spd⟩
    ∧ leftForward (moveForward spd s) ∧ rightForward (moveForward spd s)
    ∧ moveBackward spd s = ⟨false, true, false, true, spd, spd⟩
    ∧ leftBackward (moveBackward spd s) ∧ rightBackward (moveBackward spd s)
    ∧ stopMoving s = ⟨false, false, false, false, 0, 0⟩ :=
  ⟨rfl, ⟨rfl, rfl⟩, ⟨rfl, rfl⟩, rfl, ⟨rfl, rfl⟩, ⟨rfl, rfl⟩, rfl,
   ⟨rfl, rfl⟩, ⟨rfl, rfl⟩, rfl, ⟨rfl, rfl⟩, ⟨rfl, rfl⟩, rfl⟩

/-- C3: `controlMotors` stops for every magnitude below 0.15 (0.149999
included) regardless of rotation; for magnitude at least 0.15 the rotation
bands [330,360) ∪ [0,30) → turnRight, [30,150) → moveBackward,
[150,210) → turnLeft, [210,330) → moveForward partition [0,360), each
issued at speed ⌊maxSpeed · mag⌋; and magnitude exactly 0.15 is not
stopped by the magnitude test alone. -/
theorem controlMotors_spec (rot mag : ℚ) (s : MotorState) :
    (mag < 15/100 → controlMotors rot mag s = stopMoving s)
    ∧ (controlMotors rot (149999/1000000) s = stopMoving s)
    ∧ (15/100 ≤ mag → 330 ≤ rot → rot < 360 →
        controlMotors rot mag s = turnRight ⌊(maxSpeed : ℚ) * mag⌋ s)
    ∧ (15/100 ≤ mag → 0 ≤ rot → rot < 30 →
        controlMotors rot mag s = turnRight ⌊(maxSpeed : ℚ) * mag⌋ s)
    ∧ (15/100 ≤ mag → 30 ≤ rot → rot < 150 →
        controlMotors rot mag s = moveBackward ⌊(maxSpeed : ℚ) * mag⌋ s)
    ∧ (15/100 ≤ mag → 150 ≤ rot → rot < 210 →
        controlMotors rot mag s = turnLeft ⌊(maxSpeed : ℚ) * mag⌋ s)
    ∧ (15/100 ≤ mag → 210 ≤ rot → rot < 330 →
        controlMotors rot mag s = moveForward ⌊(maxSpeed : ℚ) * mag⌋ s)
    ∧ (controlMotors 0 (15/100) s = turnRight 27 s) := by
  have hfloor : 15/100 ≤ mag →
      toCppInt ((maxSpeed : ℚ) * mag) = ⌊(maxSpeed : ℚ) * mag⌋ := by
    intro h
    exact toCppInt_eq_floor _ (by unfold maxSpeed; push_cast; nlinarith)
  refine ⟨?_, ?_, ?_, ?_, ?_, ?_, ?_, ?_⟩
  · intro h
    unfold controlMotors
    rw [if_pos h]
  · unfold controlMotors
    rw [if_pos (by norm_num)]
  · intro hm h1 h2
    unfold controlMotors
    rw [if_neg (by linarith), if_pos (Or.inl h1), hfloor hm]
  · intro hm h1 h2
    unfold controlMotors
    rw [if_neg (by linarith), if_pos (Or.inr h2), hfloor hm]
  · intro hm h1 h2
    unfold controlMotors
    rw [if_neg (by linarith), if_neg (by rintro (h | h) <;> linarith),
      if_pos ⟨h1, h2⟩, hfloor hm]
  · intro hm h1 h2
    unfold controlMotors
    rw [if_neg (by linarith), if_neg (by rintro (h | h) <;> linarith),
      if_neg (by rintro ⟨h, h'⟩; linarith), if_pos ⟨h1, h2⟩, hfloor hm]
  · intro hm h1 h2
    unfold controlMotors
    rw [if_neg (by linarith), if_neg (by rintro (h | h) <;> linarith),
      if_neg (by rintro ⟨h, h'⟩; linarith),
      if_neg (by rintro ⟨h, h'⟩; linarith), if_pos ⟨h1, h2⟩, hfloor hm]
  · unfold controlMotors
    rw [if_neg (by norm_num), if_pos (Or.inr (by norm_num))]
    have h27 : toCppInt ((maxSpeed : ℚ) * (15/100)) = 27 := by
      rw [toCppInt_eq_floor _ (by unfold maxSpeed; norm_num),
        show ((maxSpeed : Int) : ℚ) * (15/100) = (27 : ℚ) by unfold maxSpeed; norm_num]
      norm_num
    rw [h27]

/-- C3 witness: at rotation 45 and magnitude 1/2 the magnitude is at
least 0.15, the rotation lies in the backward band, and the issued
command is `moveBackward` at speed ⌊180 · (1/2)⌋. -/
theorem controlMotors_spec_witness :
    controlMotors 45 (1/2) ⟨false, false, false, false, 0, 0⟩ =
      moveBackward ⌊(maxSpeed : ℚ) * (1/2)⌋ ⟨false, false, false, false, 0, 0⟩ :=
  (controlMotors_spec 45 (1/2) ⟨false, false, false, false, 0, 0⟩).2.2.2.2.1
    (by norm_num) (by norm_num) (by norm_num)

/-- C10: for magnitude at least 0.15 every rotation — negative and at or
above 360 included — falls into exactly one branch: negative rotations and
rotations ≥ 360 both issue `turnRight`, and in general the result is one
of the four directional commands at speed ⌊maxSpeed · mag⌋; no input with
such a magnitude leaves the motor registers untouched. -/
theorem controlMotors_total (rot mag : ℚ) (s : MotorState)
    (hm : 15/100 ≤ mag) :
    (rot < 0 → controlMotors rot mag s = turnRight ⌊(maxSpeed : ℚ) * mag⌋ s)
    ∧ (360 ≤ rot → controlMotors rot mag s = turnRight ⌊(maxSpeed : ℚ) * mag⌋ s)
    ∧ (controlMotors rot mag s = turnRight ⌊(maxSpeed : ℚ) * mag⌋ s
       ∨ controlMotors rot mag s = moveBackward ⌊(maxSpeed : ℚ) * mag⌋ s
       ∨ controlMotors rot mag s = turnLeft ⌊(maxSpeed : ℚ) * mag⌋ s
       ∨ controlMotors rot mag s = moveForward ⌊(maxSpeed : ℚ) * mag⌋ s) := by
  have hfloor : toCppInt ((maxSpeed : ℚ) * mag) = ⌊(maxSpeed : ℚ) * mag⌋ :=
    toCppInt_eq_floor _ (by unfold maxSpeed; push_cast; nlinarith)
  refine ⟨?_, ?_, ?_⟩
  · intro h
    unfold controlMotors
    rw [if_neg (by linarith), if_pos (Or.inr (by linarith)), hfloor]
  · intro h
    unfold controlMotors
    rw [if_neg (by linarith), if_pos (Or.inl (by linarith)), hfloor]
  · unfold controlMotors
    rw [if_neg (by linarith)]
    by_cases h1 : 330 ≤ rot ∨ rot < 30
    · rw [if_pos h1, hfloor]; left; rfl
    · push_neg at h1
      rw [if_neg (by rintro (h | h) <;> [exact absurd h (by linarith); linarith])]
      by_cases h2 : 30 ≤ rot ∧ rot < 150
      · rw [if_pos h2, hfloor]; right; left; rfl
      · rw [if_neg h2]
        by_cases h3 : 150 ≤ rot ∧ rot < 210
        · rw [if_pos h3, hfloor]; right; right; left; rfl
        · rw [if_neg h3]
          have hr : 210 ≤ rot ∧ rot < 330 := by
            constructor
            · by_contra hc
              push_neg at hc
              rcases lt_or_le rot 150 with h | h
              · exact h2 ⟨h1.2, h⟩
              · exact h3 ⟨h, by linarith⟩
            · linarith [h1.1]
          rw [if_pos hr, hfloor]; right; right; right; rfl

/-- C10 witness: at rotation −45 (out of range below) and magnitude 1 the
command is `turnRight` at speed ⌊180 · 1⌋. -/
theorem controlMotors_total_witness :
    controlMotors (-45) 1 ⟨false, false, false, false, 0, 0⟩ =
      turnRight ⌊(maxSpeed : ℚ) * 1⌋ ⟨false, false, false, false, 0, 0⟩ :=
  (controlMotors_total (-45) 1 ⟨false, false, false, false, 0, 0⟩
    (by norm_num)).1 (by norm_num)

/-- C6: `getDistanceCM` returns the sentinel 999 exactly when the
measured pulse duration is zero (no echo within the 30 ms bound), and
otherwise the duration in microseconds divided by 58; duration 580 µs
yields 10 cm. -/
theorem getDistanceCM_spec (duration : Nat) :
    (duration = 0 → getDistanceCM duration = 999)
    ∧ (duration ≠ 0 → getDistanceCM duration = duration / 58)
    ∧ getDistanceCM 580 = 10 := by
  refine ⟨?_, ?_, by decide⟩
  · intro h
    rw [getDistanceCM, if_pos h]
  · intro h
    rw [getDistanceCM, if_neg h]

/-- C6 witness: a zero-duration (timed-out) pulse yields 999, and a
580 µs pulse yields 10 cm. -/
theorem getDistanceCM_spec_witness :
    getDistanceCM 0 = 999 ∧ getDistanceCM 580 = 10 :=
  ⟨(getDistanceCM_spec 0).1 rfl, (getDistanceCM_spec 580).2.2⟩

/-- C4: every Follow-mode distance sample lands in exactly one of three
bands — above 60 cm moves forward at the auto-follow speed 160, below
25 cm stops, and the inclusive middle band [25,60] also stops — and the
999 ranging-timeout sentinel goes through the same classification,
yielding Forward. -/
theorem processAutoFollowMode_spec (d : Int) (s : MotorState) :
    (d > 60 → processAutoFollowMode d s =
      (moveForward 160 s, ["Distance: " ++ toString d ++ " cm", "Moving forward"]))
    ∧ (d < 25 → processAutoFollowMode d s =
      (stopMoving s, ["Distance: " ++ toString d ++ " cm", "Stopped (too close)"]))
    ∧ (25 ≤ d → d ≤ 60 → processAutoFollowMode d s =
      (stopMoving s, ["Distance: " ++ toString d ++ " cm", "Stopped (maintaining distance)"]))
    ∧ processAutoFollowMode 999 s =
      (moveForward 160 s, ["Distance: 999 cm", "Moving forward"])
    ∧ ((processAutoFollowMode d s).1 = moveForward 160 s
       ∨ (processAutoFollowMode d s).1 = stopMoving s) := by
  refine ⟨?_, ?_, ?_, ?_, ?_⟩
  · intro h
    rw [processAutoFollowMode]
    rw [if_pos h]
    rfl
  · intro h
    rw [processAutoFollowMode]
    rw [if_neg (by omega), if_pos h]
    rfl
  · intro h1 h2
    rw [processAutoFollowMode]
    rw [if_neg (by omega), if_neg (by omega)]
    rfl
  · rw [processAutoFollowMode]
    rw [if_pos (by omega)]
    rfl
  · rw [processAutoFollowMode]
    split_ifs
    · left; rfl
    · right; rfl
    · right; rfl

/-- C4 witness: the sentinel distance 999 is classified as far and
drives forward at speed 160. -/
theorem processAutoFollowMode_spec_witness :
    processAutoFollowMode 999 ⟨false, false, false, false, 0, 0⟩ =
      (moveForward 160 ⟨false, false, false, false, 0, 0⟩,
       ["Distance: 999 cm", "Moving forward"]) :=
  (processAutoFollowMode_spec 999 ⟨false, false, false, false, 0, 0⟩).1
    (by norm_num)

/-- C9: `switchMode` with the currently active mode as target is a
complete no-op — the whole system state, motor registers and serial log
included, is returned unchanged. -/
theorem switchMode_idempotent (now : Nat) (m : RobotMode) (st : SysState)
    (h : st.currentMode = m) : switchMode now m st = st := by
  rw [switchMode, if_neg]
  intro hne
  exact hne h

/-- C9 witness: switching to BLUETOOTH from the boot state (already in
BLUETOOTH mode) changes nothing. -/
theorem switchMode_idempotent_witness :
    switchMode 0 RobotMode.MODE_BLUETOOTH initialState = initialState :=
  switchMode_idempotent 0 RobotMode.MODE_BLUETOOTH initialState rfl

/-- C1 counterexample: a genuine mode transition (BLUETOOTH to
AUTO_FOLLOW) does not reset the last-command timestamp: starting from a
state whose `lastCommandTime` is 5, it is still 5 (in particular nonzero)
after the switch, refuting the claim that both RemoteSession fields are
reset. -/
theorem switchMode_lastCommandTime_counterexample :
    (switchMode 100 RobotMode.MODE_AUTO_FOLLOW
      { initialState with lastCommandTime := 5 }).lastCommandTime = 5 ∧
    ¬ (switchMode 100 RobotMode.MODE_AUTO_FOLLOW
      { initialState with lastCommandTime := 5 }).lastCommandTime = 0 := by
  decide

/-- C1 (amended): a mode switch to a different target stops both motors
(all direction pins low, zero speeds) before committing the new mode,
resets the partial input line buffer and the TestSequence state (phase
index and running flag) — but leaves the last-command timestamp
untouched — and, when the target is TEST, sets the phase start timestamp
to the current time and marks the sequence as running. -/
theorem switchMode_transition_spec (now : Nat) (newMode : RobotMode)
    (st : SysState) (h : st.currentMode ≠ newMode) :
    (switchMode now newMode st).motor = stopMoving st.motor
    ∧ (switchMode now newMode st).currentMode = newMode
    ∧ (switchMode now newMode st).inputLine = []
    ∧ (switchMode now newMode st).testPhase = 0
    ∧ (switchMode now newMode st).lastCommandTime = st.lastCommandTime
    ∧ (newMode ≠ RobotMode.MODE_TEST → (switchMode now newMode st).testRunning = false)
    ∧ (newMode = RobotMode.MODE_TEST →
        (switchMode now newMode st).testRunning = true
        ∧ (switchMode now newMode st).testStartTime = now)
    ∧ (switchMode now newMode st).serialLog =
        st.serialLog ++ ["Mode switched to: " ++ modeName newMode] := by
  rw [switchMode, if_pos h]
  rcases newMode with _ | _ | _ <;>
    exact ⟨rfl, rfl, rfl, rfl, rfl, fun hne => by
        first
          | rfl
          | exact absurd rfl hne,
      fun he => by
        first
          | exact ⟨rfl, rfl⟩
          | exact absurd he (by intro hx; cases hx),
      rfl⟩

/-- C1 witness: switching the boot state (BLUETOOTH) to TEST at time 42
stops the motors, commits TEST, clears the input line, zeroes the phase,
keeps the last-command timestamp, marks the sequence running with phase
start 42, and logs the confirmation. -/
theorem switchMode_transition_spec_witness :
    (switchMode 42 RobotMode.MODE_TEST initialState).motor =
        stopMoving initialState.motor
    ∧ (switchMode 42 RobotMode.MODE_TEST initialState).currentMode =
        RobotMode.MODE_TEST
    ∧ (switchMode 42 RobotMode.MODE_TEST initialState).testRunning = true
    ∧ (switchMode 42 RobotMode.MODE_TEST initialState).testStartTime = 42 := by
  have h := switchMode_transition_spec 42 RobotMode.MODE_TEST initialState
    (by decide)
  exact ⟨h.1, h.2.1, (h.2.2.2.2.2.2.1 rfl).1, (h.2.2.2.2.2.2.1 rfl).2⟩

/-- C7: `checkModeSwitch` does nothing when no input is available,
processes the available lines in order, and on each line — after trimming
and lower-casing — recognizes exactly the tokens "auto", "bluetooth" and
"test" as mode switches, every other token leaving the entire state
unchanged. -/
theorem checkModeSwitch_spec (now : Nat) (line : List Char)
    (rest : List (List Char)) (st : SysState) :
    checkModeSwitch now [] st = st
    ∧ checkModeSwitch now (line :: rest) st =
        checkModeSwitch now rest (processModeToken now line st)
    ∧ (arduinoLowerCase (arduinoTrim line) = "auto".toList →
        processModeToken now line st = switchMode now RobotMode.MODE_AUTO_FOLLOW st)
    ∧ (arduinoLowerCase (arduinoTrim line) = "bluetooth".toList →
        processModeToken now line st = switchMode now RobotMode.MODE_BLUETOOTH st)
    ∧ (arduinoLowerCase (arduinoTrim line) = "test".toList →
        processModeToken now line st = switchMode now RobotMode.MODE_TEST st)
    ∧ (¬ arduinoLowerCase (arduinoTrim line) = "auto".toList →
       ¬ arduinoLowerCase (arduinoTrim line) = "bluetooth".toList →
       ¬ arduinoLowerCase (arduinoTrim line) = "test".toList →
        processModeToken now line st = st) := by
  refine ⟨rfl, rfl, ?_, ?_, ?_, ?_⟩
  · intro h
    simp only [processModeToken]
    rw [h, if_pos rfl]
  · intro h
    simp only [processModeToken]
    rw [h, if_neg (by decide), if_pos rfl]
  · intro h
    simp only [processModeToken]
    rw [h, if_neg (by decide), if_neg (by decide), if_pos rfl]
  · intro h1 h2 h3
    simp only [processModeToken]
    rw [if_neg h1, if_neg h2, if_neg h3]

/-- C7 witness: the line "  TeSt " (whitespace and mixed case) switches
to TEST, and the unrecognized token "stop" leaves the state unchanged. -/
theorem checkModeSwitch_spec_witness :
    processModeToken 7 "  TeSt ".toList initialState =
        switchMode 7 RobotMode.MODE_TEST initialState
    ∧ processModeToken 7 "stop".toList initialState = initialState :=
  ⟨(checkModeSwitch_spec 7 "  TeSt ".toList [] initialState).2.2.2.2.1
      (by decide),
   (checkModeSwitch_spec 7 "stop".toList [] initialState).2.2.2.2.2
      (by decide) (by decide) (by decide)⟩

/-- C8: `processJoystickCommand` rejects, with no side effect at all (no
actuation, no timestamp update, no log), every line that does not start
with "J0:" and every line without a comma. -/
theorem processJoystickCommand_rejects (now : Nat) (cmd : List Char)
    (st : SysState) :
    (¬ cmd.take 3 = "J0:".toList → processJoystickCommand now cmd st = st)
    ∧ (cmd.findIdx? (fun c => c = ',') = none →
        processJoystickCommand now cmd st = st) := by
  constructor
  · intro h
    rw [processJoystickCommand, if_pos h]
  · intro h
    by_cases hp : cmd.take 3 = "J0:".toList
    · rw [processJoystickCommand, if_neg (not_not_intro hp), h]
    · rw [processJoystickCommand, if_pos hp]

/-- C8 witness: "garbage" (no prefix) and "J0:45" (no comma) each leave
the state completely unchanged. -/
theorem processJoystickCommand_rejects_witness :
    processJoystickCommand 3 "garbage".toList initialState = initialState
    ∧ processJoystickCommand 3 "J0:45".toList initialState = initialState :=
  ⟨(processJoystickCommand_rejects 3 "garbage".toList initialState).1
      (by decide),
   (processJoystickCommand_rejects 3 "J0:45".toList initialState).2
      (by decide)⟩

/-- C5: in a Test-mode tick with the sequence running and elapsed time
e = now − phase-start: Phase 0 issues Forward at testSpeed on [0,2000),
Stop on [2000,3000), Backward on [3000,5000), Stop on [5000,6000), and at
e ≥ 6000 moves to Phase 1 resetting the phase start; Phase 1 issues
TurnLeft on [0,10000), Stop on [10000,13000), and at e ≥ 13000 wraps to
Phase 0, resets the phase start, and that is the only situation in which
the cycle-restart line is logged. -/
theorem processTestMode_spec (now : Nat) (ts : TestState) (s : MotorState)
    (hrun : ts.testRunning = true) (hle : ts.testStartTime ≤ now)
    (hlt : now - ts.testStartTime < ULONG_MOD) :
    (ts.testPhase = 0 → now - ts.testStartTime < 2000 →
      processTestMode now ts s = (ts, moveForward testSpeed s, ["Test: Moving forward"]))
    ∧ (ts.testPhase = 0 → 2000 ≤ now - ts.testStartTime →
        now - ts.testStartTime < 3000 →
      processTestMode now ts s = (ts, stopMoving s, ["Test: Stopped"]))
    ∧ (ts.testPhase = 0 → 3000 ≤ now - ts.testStartTime →
        now - ts.testStartTime < 5000 →
      processTestMode now ts s = (ts, moveBackward testSpeed s, ["Test: Moving backward"]))
    ∧ (ts.testPhase = 0 → 5000 ≤ now - ts.testStartTime →
        now - ts.testStartTime < 6000 →
      processTestMode now ts s = (ts, stopMoving s, ["Test: Stopped"]))
    ∧ (ts.testPhase = 0 → 6000 ≤ now - ts.testStartTime →
      processTestMode now ts s =
        ({ ts with testPhase := 1, testStartTime := now }, s, []))
    ∧ (ts.testPhase = 1 → now - ts.testStartTime < 10000 →
      processTestMode now ts s = (ts, turnLeft testSpeed s, ["Test: Rotating (circle)"]))
    ∧ (ts.testPhase = 1 → 10000 ≤ now - ts.testStartTime →
        now - ts.testStartTime < 13000 →
      processTestMode now ts s = (ts, stopMoving s, ["Test: Stopped"]))
    ∧ (ts.testPhase = 1 → 13000 ≤ now - ts.testStartTime →
      processTestMode now ts s =
        ({ ts with testPhase := 0, testStartTime := now }, s, ["Test: Cycle restarted"]))
    ∧ ((ts.testPhase = 0 ∨ ts.testPhase = 1) →
      ((processTestMode now ts s).2.2 = ["Test: Cycle restarted"] ↔
        ts.testPhase = 1 ∧ 13000 ≤ now - ts.testStartTime)) := by
  obtain ⟨ph, start, running⟩ := ts
  simp only at hrun hle hlt ⊢
  subst hrun
  unfold ULONG_MOD at hlt
  refine ⟨?_, ?_, ?_, ?_, ?_, ?_, ?_, ?_, ?_⟩
  · intro hph h1
    subst hph
    simp only [processTestMode, testInit, testElapsed, ULONG_MOD,
      Bool.true_eq_false, Nat.reduceEqDiff, reduceIte]
    split_ifs <;> first | rfl | omega
  · intro hph h1 h2
    subst hph
    simp only [processTestMode, testInit, testElapsed, ULONG_MOD,
      Bool.true_eq_false, Nat.reduceEqDiff, reduceIte]
    split_ifs <;> first | rfl | omega
  · intro hph h1 h2
    subst hph
    simp only [processTestMode, testInit, testElapsed, ULONG_MOD,
      Bool.true_eq_false, Nat.reduceEqDiff, reduceIte]
    split_ifs <;> first | rfl | omega
  · intro hph h1 h2
    subst hph
    simp only [processTestMode, testInit, testElapsed, ULONG_MOD,
      Bool.true_eq_false, Nat.reduceEqDiff, reduceIte]
    split_ifs <;> first | rfl | omega
  · intro hph h1
    subst hph
    simp only [processTestMode, testInit, testElapsed, ULONG_MOD,
      Bool.true_eq_false, Nat.reduceEqDiff, reduceIte]
    split_ifs <;> first | rfl | omega
  · intro hph h1
    subst hph
    simp only [processTestMode, testInit, testElapsed, ULONG_MOD,
      Bool.true_eq_false, Nat.reduceEqDiff, reduceIte]
    split_ifs <;> first | rfl | omega
  · intro hph h1 h2
    subst hph
    simp only [processTestMode, testInit, testElapsed, ULONG_MOD,
      Bool.true_eq_false, Nat.reduceEqDiff, reduceIte]
    split_ifs <;> first | rfl | omega
  · intro hph h1
    subst hph
    simp only [processTestMode, testInit, testElapsed, ULONG_MOD,
      Bool.true_eq_false, Nat.reduceEqDiff, reduceIte]
    split_ifs <;> first | rfl | omega
  · intro hph
    rcases hph with hph | hph <;> subst hph <;>
      simp only [processTestMode, testInit, testElapsed, ULONG_MOD,
        Bool.true_eq_false, Nat.reduceEqDiff, reduceIte] <;>
      split_ifs <;> simp_all <;> omega

/-- C5 witness: with the sequence running in Phase 1 started at time 500,
the tick at time 13500 (elapsed 13000) wraps to Phase 0, resets the phase
start to 13500, and logs the cycle restart. -/
theorem processTestMode_spec_witness :
    processTestMode 13500 ⟨1, 500, true⟩ ⟨false, false, false, false, 0, 0⟩ =
      (⟨0, 13500, true⟩, ⟨false, false, false, false, 0, 0⟩,
       ["Test: Cycle restarted"]) :=
  (processTestMode_spec 13500 ⟨1, 500, true⟩ ⟨false, false, false, false, 0, 0⟩
      rfl (by norm_num) (by norm_num [ULONG_MOD])).2.2.2.2.2.2.2.1
    rfl (by norm_num)

end Milo
